import Mathlib

/-!
Verification of the resume scoring and field-recommendation engine of the
AI Resume Analyzer (src/App/App.py).

Embedding choices:
* Python strings are modelled as lists of Unicode codepoints (`PyStr := List Nat`).
* `str.upper` / `str.lower` are modelled on their ASCII fragment
  (`pyUpperChar` / `pyLowerChar`), which is the fragment every keyword in the
  program lives in.
* Python's substring operator `needle in hay` is `strIn`.
* `random.randint(0, 15)` is an injected parameter `rand : Nat` constrained by
  `rand ≤ 15` in the theorems.
* For the error-handling analysis, dynamically typed Python values are
  `PyVal` and attribute access on a non-string returns `Except.error`,
  mirroring the `AttributeError` / `TypeError` the interpreter raises.
-/

/-- A Python string, as its list of Unicode codepoints. -/
abbrev PyStr := List Nat

/-- Turn a Lean string literal into a `PyStr`. -/
def lit (s : String) : PyStr := s.data.map Char.toNat

/-- ASCII fragment of Python `str.upper` on a single codepoint. -/
def pyUpperChar (c : Nat) : Nat := if 97 ≤ c ∧ c ≤ 122 then c - 32 else c

/-- ASCII fragment of Python `str.lower` on a single codepoint. -/
def pyLowerChar (c : Nat) : Nat := if 65 ≤ c ∧ c ≤ 90 then c + 32 else c

/-- Python `s.upper()` (ASCII fragment). -/
def pyUpper (s : PyStr) : PyStr := s.map pyUpperChar

/-- Python `s.lower()` (ASCII fragment). -/
def pyLower (s : PyStr) : PyStr := s.map pyLowerChar

/-- Does `n` start the string `h`?  (Helper for the substring test.) -/
def strPre : PyStr → PyStr → Bool
  | [], _ => true
  | _ :: _, [] => false
  | a :: as, b :: bs => (a == b) && strPre as bs

/-- Python's substring operator: `strIn needle hay` is `needle in hay`. -/
def strIn (needle : PyStr) : PyStr → Bool
  | [] => needle.isEmpty
  | b :: bs => strPre needle (b :: bs) || strIn needle bs

/-- A course recommendation entry `(name, url)` from the module constants. -/
structure Course where
  name : String
  url : String
deriving DecidableEq, Repr

/-- `DS_COURSE` from App.py. -/
def DS_COURSE : List Course :=
  [⟨"Machine Learning A-Z", "https://coursera.org/ml"⟩,
   ⟨"Deep Learning Specialization", "https://coursera.org/deeplearning"⟩,
   ⟨"Python for Data Science", "https://udemy.com/python-datascience"⟩]

/-- `WEB_COURSE` from App.py. -/
def WEB_COURSE : List Course :=
  [⟨"The Web Developer Bootcamp", "https://udemy.com/web-developer"⟩,
   ⟨"React - The Complete Guide", "https://udemy.com/react-complete"⟩,
   ⟨"Node.js Complete Course", "https://udemy.com/nodejs"⟩]

/-- `ANDROID_COURSE` from App.py. -/
def ANDROID_COURSE : List Course :=
  [⟨"Android Development", "https://udemy.com/android-development"⟩,
   ⟨"Kotlin for Android", "https://udemy.com/kotlin-android"⟩,
   ⟨"Flutter Complete Course", "https://udemy.com/flutter"⟩]

/-- `IOS_COURSE` from App.py. -/
def IOS_COURSE : List Course :=
  [⟨"iOS & Swift - The Complete Course", "https://udemy.com/ios-swift"⟩,
   ⟨"SwiftUI Masterclass", "https://udemy.com/swiftui"⟩]

/-- `UIUX_COURSE` from App.py. -/
def UIUX_COURSE : List Course :=
  [⟨"UI/UX Design Complete", "https://udemy.com/uiux-design"⟩,
   ⟨"Figma UI Design", "https://udemy.com/figma-design"⟩]

/-- `ds_keywords` from `analyze_resume`. -/
def ds_keywords : List PyStr :=
  [lit "tensorflow", lit "keras", lit "pytorch", lit "machine learning",
   lit "deep learning", lit "flask"]

/-- `web_keywords` from `analyze_resume`. -/
def web_keywords : List PyStr :=
  [lit "react", lit "django", lit "node", lit "javascript", lit "php",
   lit "angular"]

/-- `android_keywords` from `analyze_resume`. -/
def android_keywords : List PyStr :=
  [lit "android", lit "kotlin", lit "flutter"]

/-- `ios_keywords` from `analyze_resume`. -/
def ios_keywords : List PyStr :=
  [lit "ios", lit "swift", lit "xcode"]

/-- `uiux_keywords` from `analyze_resume`. -/
def uiux_keywords : List PyStr :=
  [lit "figma", lit "adobe xd", lit "ux", lit "ui", lit "prototyping"]

/-- All five keyword sets concatenated, used to say "no skill matches any set". -/
def all_field_keywords : List PyStr :=
  ds_keywords ++ web_keywords ++ android_keywords ++ ios_keywords ++ uiux_keywords

/-- The `(reco_field, recommended_skills, rec_course)` triple that the
field-recommendation part of `analyze_resume` computes. -/
structure FieldReco where
  reco_field : String
  recommended_skills : List String
  rec_course : List Course
deriving DecidableEq, Repr

/-- The `for skill in skills_lower` loop of `analyze_resume` (lines 334-359):
first skill, first matching set wins via `break`; the empty-list case returns
the initial values `("General", [], DS_COURSE)` set just before the loop. -/
def fieldLoop : List PyStr → FieldReco
  | [] => { reco_field := "General", recommended_skills := [], rec_course := DS_COURSE }
  | skill :: rest =>
    if ds_keywords.any (fun kw => strIn kw skill) then
      { reco_field := "Data Science",
        recommended_skills := ["TensorFlow", "PyTorch", "Scikit-learn", "Pandas", "Data Visualization"],
        rec_course := DS_COURSE }
    else if web_keywords.any (fun kw => strIn kw skill) then
      { reco_field := "Web Development",
        recommended_skills := ["React", "Node.js", "Django", "JavaScript", "REST APIs"],
        rec_course := WEB_COURSE }
    else if android_keywords.any (fun kw => strIn kw skill) then
      { reco_field := "Android Development",
        recommended_skills := ["Kotlin", "Android Studio", "Flutter", "Java"],
        rec_course := ANDROID_COURSE }
    else if ios_keywords.any (fun kw => strIn kw skill) then
      { reco_field := "iOS Development",
        recommended_skills := ["Swift", "Xcode", "SwiftUI", "UIKit"],
        rec_course := IOS_COURSE }
    else if uiux_keywords.any (fun kw => strIn kw skill) then
      { reco_field := "UI/UX Design",
        recommended_skills := ["Figma", "Adobe XD", "Prototyping", "User Research"],
        rec_course := UIUX_COURSE }
    else fieldLoop rest

/-- The field classifier of `analyze_resume` (lines 320-359): lower-case the
skills (`skills_lower = [s.lower() for s in skills]`), then run the loop. -/
def analyze_fields (skills : List PyStr) : FieldReco :=
  fieldLoop (skills.map pyLower)

/-- The experience-level detector of `analyze_resume` (lines 306-316). -/
def cand_level (resume_text : PyStr) : String :=
  let text_upper := pyUpper resume_text
  if strIn (lit "INTERNSHIP") text_upper || strIn (lit "INTERNSHIPS") text_upper then
    "Intermediate"
  else if strIn (lit "EXPERIENCE") text_upper || strIn (lit "WORK EXPERIENCE") text_upper then
    "Experienced"
  else
    "Fresher"

/-- Section keyword list `'objective'` of `calculate_resume_score`. -/
def objective_keywords : List PyStr := [lit "OBJECTIVE", lit "SUMMARY", lit "PROFILE"]

/-- Section keyword list `'education'` of `calculate_resume_score`. -/
def education_keywords : List PyStr :=
  [lit "EDUCATION", lit "DEGREE", lit "BACHELOR", lit "MASTER"]

/-- Section keyword list `'experience'` of `calculate_resume_score`. -/
def experience_keywords : List PyStr :=
  [lit "EXPERIENCE", lit "WORK EXPERIENCE", lit "PROFESSIONAL EXPERIENCE"]

/-- Section keyword list `'skills'` of `calculate_resume_score`. -/
def skills_keywords : List PyStr :=
  [lit "SKILLS", lit "TECHNICAL SKILLS", lit "COMPETENCIES"]

/-- Section keyword list `'projects'` of `calculate_resume_score`. -/
def projects_keywords : List PyStr := [lit "PROJECTS", lit "PROJECT EXPERIENCE"]

/-- Section keyword list `'certifications'` of `calculate_resume_score`. -/
def certifications_keywords : List PyStr :=
  [lit "CERTIFICATIONS", lit "CERTIFICATE"]

/-- The `sections` dict of `calculate_resume_score`, in insertion order. -/
def sections : List (List PyStr) :=
  [objective_keywords, education_keywords, experience_keywords,
   skills_keywords, projects_keywords, certifications_keywords]

/-- The language-bonus keyword list of `calculate_resume_score`. -/
def lang_keywords : List PyStr :=
  [lit "python", lit "java", lit "react", lit "sql"]

/-- The `for section, keywords in sections.items()` loop of
`calculate_resume_score`: 15 points per section whose keyword list has a
member occurring in the uppercased text. -/
def baseSections (text_upper : PyStr) : Nat :=
  sections.foldl
    (fun score kws => if kws.any (fun kw => strIn kw text_upper) then score + 15 else score) 0

/-- The non-random part of `calculate_resume_score` (lines 393-413): section
points, then `+10` if `len(resume_text) > 500`, then `+10` if a language
keyword occurs in `text_upper.lower()`. -/
def resume_base (resume_text : PyStr) : Nat :=
  let text_upper := pyUpper resume_text
  let score := baseSections text_upper
  let score := if 500 < resume_text.length then score + 10 else score
  if lang_keywords.any (fun kw => strIn kw (pyLower text_upper)) then score + 10 else score

/-- `calculate_resume_score` (lines 391-415), with `random.randint(0, 15)`
injected as `rand`: `min(score + rand, 100)`. -/
def calculate_resume_score (resume_text : PyStr) (rand : Nat) : Nat :=
  min (resume_base resume_text + rand) 100

/-- Written from the spec's words (section 4.2): 15 points per section whose
keyword list has a member that is a substring of the uppercased text, plus 10
if the length exceeds 500, plus 10 if a language keyword occurs
case-insensitively (i.e. in the lowercased text). -/
def spec_base (text : PyStr) : Nat :=
  15 * (sections.filter (fun kws => kws.any (fun kw => strIn kw (pyUpper text)))).length
    + (if 500 < text.length then 10 else 0)
    + (if lang_keywords.any (fun kw => strIn kw (pyLower text)) then 10 else 0)

/-- Written from the spec's words (section 4.1): the first matching set for
one skill, in the fixed priority order DataScience > WebDev > Android > iOS >
UIUX. -/
def spec_field_of_skill (skill : PyStr) : Option String :=
  if ds_keywords.any (fun kw => strIn kw skill) then some "Data Science"
  else if web_keywords.any (fun kw => strIn kw skill) then some "Web Development"
  else if android_keywords.any (fun kw => strIn kw skill) then some "Android Development"
  else if ios_keywords.any (fun kw => strIn kw skill) then some "iOS Development"
  else if uiux_keywords.any (fun kw => strIn kw skill) then some "UI/UX Design"
  else none

/-- Written from the spec's words (section 4.1): the field of the first skill
with a matching set, scanning skills in original order. -/
def spec_first_field : List PyStr → Option String
  | [] => none
  | skill :: rest =>
    match spec_field_of_skill skill with
    | some f => some f
    | none => spec_first_field rest

/-- Written from the spec's words (section 4.1): lower-case the skills, take
the first skill / first matching set, and return General when nothing
matches. -/
def spec_field (skills : List PyStr) : String :=
  (spec_first_field (skills.map pyLower)).getD "General"

/-- Written from the spec's words (section 4.3): the experience-level
contract. -/
def spec_level (text : PyStr) : String :=
  let text_upper := pyUpper text
  if strIn (lit "INTERNSHIP") text_upper || strIn (lit "INTERNSHIPS") text_upper then
    "Intermediate"
  else if strIn (lit "EXPERIENCE") text_upper || strIn (lit "WORK EXPERIENCE") text_upper then
    "Experienced"
  else
    "Fresher"

/-- A concrete resume text with all six sections, a language keyword, and
length 519 > 500; the codepoint 88 is the letter X. -/
def sampleFull : PyStr :=
  lit "OBJECTIVE EDUCATION EXPERIENCE SKILLS PROJECTS CERTIFICATIONS python " ++
    List.replicate 450 88

/-- A dynamically typed Python value, for the error-handling analysis:
a string, `None`, or a non-string object such as an int. -/
inductive PyVal where
  | vstr : PyStr → PyVal
  | vnone : PyVal
  | vint : Int → PyVal
deriving DecidableEq, Repr

/-- Is this Python value a string? -/
def PyVal.isStr : PyVal → Bool
  | .vstr _ => true
  | _ => false

/-- Python `s.lower()` on a dynamic value: on a non-string the interpreter
raises `AttributeError`, modelled as `Except.error`. -/
def lowerV : PyVal → Except String PyStr
  | .vstr s => .ok (pyLower s)
  | _ => .error "AttributeError: object has no attribute lower"

/-- Python `s.upper()` on a dynamic value, failing on non-strings. -/
def upperV : PyVal → Except String PyStr
  | .vstr s => .ok (pyUpper s)
  | _ => .error "AttributeError: object has no attribute upper"

/-- Python `len(s)` on a dynamic value, failing on values without a length. -/
def lenV : PyVal → Except String Nat
  | .vstr s => .ok s.length
  | _ => .error "TypeError: object has no len"

/-- The comprehension `[s.lower() for s in skills]` of `analyze_resume`
(line 332) over dynamic values: evaluated left to right, the first
non-string raises. -/
def lowerAll : List PyVal → Except String (List PyStr)
  | [] => .ok []
  | s :: rest =>
    match lowerV s with
    | .error e => .error e
    | .ok l =>
      match lowerAll rest with
      | .error e => .error e
      | .ok ls => .ok (l :: ls)

/-- The field classifier of `analyze_resume` over dynamic skill values: the
lower-casing comprehension runs before the loop, so any non-string entry
raises before a field is chosen. -/
def analyze_fields_dyn (skills : List PyVal) : Except String FieldReco :=
  match lowerAll skills with
  | .error e => .error e
  | .ok skills_lower => .ok (fieldLoop skills_lower)

/-- `calculate_resume_score` over a dynamic `resume_text` value: the very
first statement `resume_text.upper()` raises on a non-string such as `None`. -/
def calculate_resume_score_dyn (resume_text : PyVal) (rand : Nat) : Except String Nat :=
  match upperV resume_text with
  | .error e => .error e
  | .ok text_upper =>
    match lenV resume_text with
    | .error e => .error e
    | .ok n =>
      let score := baseSections text_upper
      let score := if 500 < n then score + 10 else score
      let score :=
        if lang_keywords.any (fun kw => strIn kw (pyLower text_upper)) then score + 10
        else score
      .ok (min (score + rand) 100)

theorem strPre_iff (n h : PyStr) : strPre n h = true ↔ ∃ t, h = n ++ t := by
  induction n generalizing h with
  | nil => simp [strPre]
  | cons a as ih =>
    cases h with
    | nil => simp [strPre]
    | cons b bs =>
      simp only [strPre, Bool.and_eq_true, beq_iff_eq, ih, List.cons_append,
        List.cons.injEq]
      constructor
      · rintro ⟨rfl, t, rfl⟩; exact ⟨t, rfl, rfl⟩
      · rintro ⟨t, rfl, rfl⟩; exact ⟨rfl, t, rfl⟩

theorem strIn_iff (n h : PyStr) : strIn n h = true ↔ ∃ l t, h = l ++ n ++ t := by
  induction h with
  | nil =>
    simp only [strIn, List.isEmpty_iff]
    constructor
    · rintro rfl; exact ⟨[], [], rfl⟩
    · rintro ⟨l, t, he⟩
      rcases List.append_eq_nil.mp (List.append_eq_nil.mp he.symm |>.1) with ⟨-, h2⟩
      exact h2
  | cons b bs ih =>
    simp only [strIn, Bool.or_eq_true, strPre_iff, ih]
    constructor
    · rintro (⟨t, ht⟩ | ⟨l, t, rfl⟩)
      · exact ⟨[], t, by simpa using ht⟩
      · exact ⟨b :: l, t, rfl⟩
    · rintro ⟨l, t, he⟩
      cases l with
      | nil => exact Or.inl ⟨t, by simpa using he⟩
      | cons x xs =>
        simp only [List.cons_append, List.cons.injEq] at he
        exact Or.inr ⟨xs, t, he.2⟩

theorem strIn_drop_left (a b h : PyStr) (hin : strIn (a ++ b) h = true) :
    strIn b h = true := by
  rcases (strIn_iff _ _).mp hin with ⟨l, t, rfl⟩
  exact (strIn_iff _ _).mpr ⟨l ++ a, t, by simp⟩

theorem pyLowerChar_pyUpperChar (c : Nat) :
    pyLowerChar (pyUpperChar c) = pyLowerChar c := by
  unfold pyUpperChar pyLowerChar
  repeat' split
  all_goals omega

theorem pyLower_pyUpper (s : PyStr) : pyLower (pyUpper s) = pyLower s := by
  unfold pyLower pyUpper
  rw [List.map_map]
  exact List.map_congr_left fun c _ => pyLowerChar_pyUpperChar c

theorem foldl_fifteen (p : List PyStr → Bool) (l : List (List PyStr)) (acc : Nat) :
    l.foldl (fun score kws => if p kws then score + 15 else score) acc
      = acc + 15 * (l.filter p).length := by
  induction l generalizing acc with
  | nil => simp
  | cons kws rest ih =>
    simp only [List.foldl_cons, List.filter_cons]
    by_cases h : p kws
    · simp only [h, if_true, ih, List.length_cons]
      omega
    · simp [h, ih]

theorem resume_base_eq_spec_base (text : PyStr) :
    resume_base text = spec_base text := by
  unfold resume_base spec_base baseSections
  dsimp only
  rw [foldl_fifteen, pyLower_pyUpper]
  by_cases h1 : 500 < text.length <;>
    by_cases h2 : lang_keywords.any (fun kw => strIn kw (pyLower text)) = true <;>
      simp [h1, h2]

theorem any_false_of_forall {p : PyStr → Bool} {l : List PyStr}
    (h : ∀ x ∈ l, p x = false) : l.any p = false := by
  induction l with
  | nil => rfl
  | cons a as ih =>
    simp only [List.any_cons, Bool.or_eq_false_iff]
    exact ⟨h a (by simp), ih fun x hx => h x (by simp [hx])⟩

theorem fieldLoop_noMatch (ls : List PyStr)
    (h : ∀ s ∈ ls, ∀ kw ∈ all_field_keywords, strIn kw s = false) :
    fieldLoop ls
      = { reco_field := "General", recommended_skills := [], rec_course := DS_COURSE } := by
  induction ls with
  | nil => rfl
  | cons s rest ih =>
    have hs : ∀ kw ∈ all_field_keywords, strIn kw s = false :=
      h s (List.mem_cons_self s rest)
    have hds : ds_keywords.any (fun kw => strIn kw s) = false :=
      any_false_of_forall fun kw hkw =>
        hs kw (by simp only [all_field_keywords, List.mem_append]; tauto)
    have hweb : web_keywords.any (fun kw => strIn kw s) = false :=
      any_false_of_forall fun kw hkw =>
        hs kw (by simp only [all_field_keywords, List.mem_append]; tauto)
    have hand : android_keywords.any (fun kw => strIn kw s) = false :=
      any_false_of_forall fun kw hkw =>
        hs kw (by simp only [all_field_keywords, List.mem_append]; tauto)
    have hios : ios_keywords.any (fun kw => strIn kw s) = false :=
      any_false_of_forall fun kw hkw =>
        hs kw (by simp only [all_field_keywords, List.mem_append]; tauto)
    have huiux : uiux_keywords.any (fun kw => strIn kw s) = false :=
      any_false_of_forall fun kw hkw =>
        hs kw (by simp only [all_field_keywords, List.mem_append]; tauto)
    rw [show fieldLoop (s :: rest) = fieldLoop rest by
      simp [fieldLoop, hds, hweb, hand, hios, huiux]]
    exact ih fun x hx => h x (List.mem_cons_of_mem _ hx)

theorem fieldLoop_reco_field (ls : List PyStr) :
    (fieldLoop ls).reco_field = (spec_first_field ls).getD "General" := by
  induction ls with
  | nil => rfl
  | cons s rest ih =>
    unfold fieldLoop spec_first_field spec_field_of_skill
    split_ifs <;> simp [ih]

/-- C1: for every resume text and injected random term `rand ≤ 15`, the score
computed by `calculate_resume_score` equals the spec's decomposition —
15 points per matched section plus the length bonus plus the
case-insensitive language bonus plus `rand`, clamped at 100 — and is
therefore an integer in [0,100] (it is a `Nat`, hence at least 0). -/
theorem claim_C1 (resume_text : PyStr) (rand : Nat) (_hrand : rand ≤ 15) :
    calculate_resume_score resume_text rand = min (spec_base resume_text + rand) 100 ∧
      calculate_resume_score resume_text rand ≤ 100 := by
  refine ⟨?_, Nat.min_le_right _ _⟩
  unfold calculate_resume_score
  rw [resume_base_eq_spec_base]

/-- Witness for C1 at a concrete text and random term. -/
theorem claim_C1_witness :
    calculate_resume_score (lit "OBJECTIVE python") 7
        = min (spec_base (lit "OBJECTIVE python") + 7) 100 ∧
      calculate_resume_score (lit "OBJECTIVE python") 7 ≤ 100 :=
  claim_C1 (lit "OBJECTIVE python") 7 (by decide)

/-- C2: the field classifier lower-cases the skills and returns the field of
the first skill whose lowered form matches a set, sets tried in the priority
order DataScience > WebDev > Android > iOS > UIUX, and General when nothing
matches; in particular an earlier skill matching only the lowest-priority set
(figma → UI/UX) beats a later skill matching the highest-priority set
(tensorflow → Data Science). -/
theorem claim_C2 (skills : List PyStr) :
    (analyze_fields skills).reco_field = spec_field skills ∧
      (analyze_fields [lit "Figma", lit "TensorFlow"]).reco_field = "UI/UX Design" := by
  refine ⟨?_, by decide⟩
  unfold analyze_fields spec_field
  exact fieldLoop_reco_field _

/-- C3: the experience-level detector implements the spec's contract
(Intermediate on INTERNSHIP/INTERNSHIPS, else Experienced on
EXPERIENCE/WORK EXPERIENCE, else Fresher), and the internship check takes
priority: any text whose uppercase form contains INTERNSHIP yields
Intermediate even when EXPERIENCE is also present. -/
theorem claim_C3 (resume_text : PyStr) :
    cand_level resume_text = spec_level resume_text ∧
      (strIn (lit "INTERNSHIP") (pyUpper resume_text) = true →
        cand_level resume_text = "Intermediate") := by
  refine ⟨rfl, fun h => ?_⟩
  unfold cand_level
  simp [h]

/-- Witness for C3 on a text containing both INTERNSHIP and EXPERIENCE. -/
theorem claim_C3_witness :
    cand_level (lit "internship and work experience") = "Intermediate" :=
  (claim_C3 (lit "internship and work experience")).2 (by decide)

/-- C4: whenever all six section checks hit, the text is longer than 500
characters and a language keyword occurs, the non-random base of the scorer
is 90 + 10 + 10 = 110, and the clamped final score is exactly 100 for every
random term in [0,15]. -/
theorem claim_C4 (resume_text : PyStr) (rand : Nat)
    (hsec : sections.all (fun kws => kws.any (fun kw => strIn kw (pyUpper resume_text))) = true)
    (hlen : 500 < resume_text.length)
    (hlang : lang_keywords.any (fun kw => strIn kw (pyLower (pyUpper resume_text))) = true)
    (hrand : rand ≤ 15) :
    resume_base resume_text = 110 ∧ calculate_resume_score resume_text rand = 100 := by
  have hbase : resume_base resume_text = 110 := by
    unfold resume_base baseSections
    dsimp only
    simp only [List.any_eq_true] at hlang
    simp only [sections] at hsec
    simp at hsec
    obtain ⟨h1, h2, h3, h4, h5, h6⟩ := hsec
    simp [sections, h1, h2, h3, h4, h5, h6, hlen, hlang]
  refine ⟨hbase, ?_⟩
  unfold calculate_resume_score
  rw [hbase]
  exact min_eq_right (by omega)

set_option maxRecDepth 1000000 in
/-- Witness for C4 on a concrete 519-character resume text containing all six
section keywords and the language keyword python. -/
theorem claim_C4_witness :
    resume_base sampleFull = 110 ∧ calculate_resume_score sampleFull 7 = 100 :=
  claim_C4 sampleFull 7 (by decide) (by decide) (by decide) (by decide)

/-- C5: on the text OBJECTIVE EDUCATION EXPERIENCE SKILLS — shorter than 500
characters and containing no language keyword — the non-random base is 60,
so the score is 60 with the random term 0 and 75 with the random term 15. -/
theorem claim_C5 :
    resume_base (lit "OBJECTIVE EDUCATION EXPERIENCE SKILLS") = 60 ∧
      (lit "OBJECTIVE EDUCATION EXPERIENCE SKILLS").length < 500 ∧
      lang_keywords.any
          (fun kw => strIn kw (pyLower (lit "OBJECTIVE EDUCATION EXPERIENCE SKILLS")))
        = false ∧
      calculate_resume_score (lit "OBJECTIVE EDUCATION EXPERIENCE SKILLS") 0 = 60 ∧
      calculate_resume_score (lit "OBJECTIVE EDUCATION EXPERIENCE SKILLS") 15 = 75 := by
  decide

/-- C6: malformed inputs are rejected with an error rather than silently
coerced: a skills list containing any non-string entry makes the classifier's
lower-casing comprehension raise, and a `None` resume text makes the scorer's
`upper()` call raise. -/
theorem claim_C6 (pre post : List PyVal) (v : PyVal) (rand : Nat)
    (hv : v.isStr = false) :
    (∃ e, analyze_fields_dyn (pre ++ v :: post) = .error e) ∧
      (∃ e, calculate_resume_score_dyn PyVal.vnone rand = .error e) := by
  constructor
  · have : ∃ e, lowerAll (pre ++ v :: post) = .error e := by
      induction pre with
      | nil =>
        cases v with
        | vstr s => simp [PyVal.isStr] at hv
        | vnone => exact ⟨_, rfl⟩
        | vint n => exact ⟨_, rfl⟩
      | cons a pre ih =>
        rcases ih with ⟨e, he⟩
        cases ha : lowerV a with
        | error e2 => exact ⟨e2, by simp [lowerAll, ha]⟩
        | ok l => exact ⟨e, by simp [lowerAll, ha, he]⟩
    rcases this with ⟨e, he⟩
    exact ⟨e, by simp [analyze_fields_dyn, he]⟩
  · exact ⟨_, rfl⟩

/-- Witness for C6: an integer skill entry and a `None` resume text. -/
theorem claim_C6_witness :
    (∃ e, analyze_fields_dyn [PyVal.vint 3] = Except.error e) ∧
      (∃ e, calculate_resume_score_dyn PyVal.vnone 0 = Except.error e) :=
  claim_C6 [] [] (PyVal.vint 3) 0 rfl

/-- C7: when no skill matches any keyword set — in particular for the empty
list and for ["excel"] — the classifier returns field General and an empty
recommended-skills list. -/
theorem claim_C7 (skills : List PyStr)
    (h : ∀ s ∈ skills, ∀ kw ∈ all_field_keywords, strIn kw (pyLower s) = false) :
    (analyze_fields skills).reco_field = "General" ∧
      (analyze_fields skills).recommended_skills = [] := by
  have hall : analyze_fields skills
      = { reco_field := "General", recommended_skills := [], rec_course := DS_COURSE } := by
    unfold analyze_fields
    refine fieldLoop_noMatch _ fun s' hs' kw hkw => ?_
    rcases List.mem_map.mp hs' with ⟨s, hsmem, rfl⟩
    exact h s hsmem kw hkw
  rw [hall]
  exact ⟨rfl, rfl⟩

/-- Witness for C7 on both the empty list and the list ["excel"]. -/
theorem claim_C7_witness :
    ((analyze_fields []).reco_field = "General" ∧
      (analyze_fields []).recommended_skills = []) ∧
      ((analyze_fields [lit "excel"]).reco_field = "General" ∧
        (analyze_fields [lit "excel"]).recommended_skills = []) :=
  ⟨claim_C7 [] (by decide), claim_C7 [lit "excel"] (by decide)⟩

/-- C8: the field classifier is a pure, deterministic function of its
skill-list argument — the embedded computation reads no state, so two calls
on equal skill lists return equal results, with equal fields in particular. -/
theorem claim_C8 (s t : List PyStr) (h : s = t) :
    analyze_fields s = analyze_fields t ∧
      (analyze_fields s).reco_field = (analyze_fields t).reco_field :=
  ⟨congrArg analyze_fields h, congrArg FieldReco.reco_field (congrArg analyze_fields h)⟩

/-- Witness for C8 on a concrete repeated call. -/
theorem claim_C8_witness :
    analyze_fields [lit "react"] = analyze_fields [lit "react"] ∧
      (analyze_fields [lit "react"]).reco_field = (analyze_fields [lit "react"]).reco_field :=
  claim_C8 [lit "react"] [lit "react"] rfl

/-- C9: when no skill matches any keyword set, the record the classifier
returns with field General still carries the Data Science course list
DS_COURSE — which is nonempty — as its recommended courses. -/
theorem claim_C9 (skills : List PyStr)
    (h : ∀ s ∈ skills, ∀ kw ∈ all_field_keywords, strIn kw (pyLower s) = false) :
    (analyze_fields skills).rec_course = DS_COURSE ∧ DS_COURSE ≠ [] := by
  have hall : analyze_fields skills
      = { reco_field := "General", recommended_skills := [], rec_course := DS_COURSE } := by
    unfold analyze_fields
    refine fieldLoop_noMatch _ fun s' hs' kw hkw => ?_
    rcases List.mem_map.mp hs' with ⟨s, hsmem, rfl⟩
    exact h s hsmem kw hkw
  rw [hall]
  exact ⟨rfl, by decide⟩

/-- Witness for C9 on the list ["excel"]. -/
theorem claim_C9_witness :
    (analyze_fields [lit "excel"]).rec_course = DS_COURSE ∧ DS_COURSE ≠ [] :=
  claim_C9 [lit "excel"] (by decide)

/-- C10: if the scorer's experience-section check hits — some keyword of
EXPERIENCE / WORK EXPERIENCE / PROFESSIONAL EXPERIENCE occurs in the
uppercased text — then EXPERIENCE itself occurs, so the experience-level
detector never returns Fresher on the same text. -/
theorem claim_C10 (resume_text : PyStr)
    (h : experience_keywords.any (fun kw => strIn kw (pyUpper resume_text)) = true) :
    cand_level resume_text ≠ "Fresher" := by
  have hexp : strIn (lit "EXPERIENCE") (pyUpper resume_text) = true := by
    simp only [experience_keywords, List.any_cons, List.any_nil, Bool.or_eq_true,
      Bool.or_false] at h
    rcases h with h | h | h
    · exact h
    · have hw : lit "WORK EXPERIENCE" = lit "WORK " ++ lit "EXPERIENCE" := by decide
      exact strIn_drop_left (lit "WORK ") _ _ (hw ▸ h)
    · have hp : lit "PROFESSIONAL EXPERIENCE" = lit "PROFESSIONAL " ++ lit "EXPERIENCE" := by
        decide
      exact strIn_drop_left (lit "PROFESSIONAL ") _ _ (hp ▸ h)
  have hcond :
      (strIn (lit "EXPERIENCE") (pyUpper resume_text)
        || strIn (lit "WORK EXPERIENCE") (pyUpper resume_text)) = true := by
    simp [hexp]
  unfold cand_level
  dsimp only
  split <;> decide

/-- Witness for C10 on a text whose experience-section check hits via
PROFESSIONAL EXPERIENCE. -/
theorem claim_C10_witness :
    cand_level (lit "Professional Experience at ACME") ≠ "Fresher" :=
  claim_C10 (lit "Professional Experience at ACME") (by decide)
